import Mathlib

/-!
Shallow embedding of the playlist-aggregation and remote-cleanup scripts of
this repository (scripts/generate_static_html.py, scripts/update_website.py,
scripts/delete_all_kalx_playlists.py, scripts/delete_duplicate_playlists.py),
together with theorems settling the specification claims about them.

External collaborators (HTTP, the OS entropy source feeding `random.choice`,
the operator's terminal, the clock) are modelled as explicit function or data
parameters; everything else is translated from the Python source.
-/

namespace Spinitron

/-! ## Python string primitives

Models of the Python `str` operations the scripts use.  Python strings
compare and match by code point; Lean `String` is a list of code points, so
the models work on `String.data`. -/

/-- Model of Python `s.startswith(p)`. -/
def listStartsWith : List Char → List Char → Bool
  | _, [] => true
  | [], _ :: _ => false
  | a :: as, b :: bs => a == b && listStartsWith as bs

/-- Model of Python `s.startswith(p)` on strings. -/
def pyStartsWith (s p : String) : Bool :=
  listStartsWith s.data p.data

/-- Model of Python `sub in s` (substring containment) on code-point lists. -/
def listContainsSub : List Char → List Char → Bool
  | [], sub => sub.isEmpty
  | a :: t, sub => listStartsWith (a :: t) sub || listContainsSub t sub

/-- Model of Python `sub in s` on strings. -/
def pyIn (sub s : String) : Bool :=
  listContainsSub s.data sub.data

/-- Model of Python `s.strip()` (drop leading and trailing whitespace). -/
def pyStrip (s : String) : String :=
  String.mk (((s.data.dropWhile Char.isWhitespace).reverse.dropWhile
    Char.isWhitespace).reverse)

/-- Model of Python `s.lower()` (the scripts only feed it ASCII input). -/
def pyLower (s : String) : String :=
  String.mk (s.data.map Char.toLower)

/-- Model of Python f-string interpolation of a value that may be `None`:
`f"{x}"` renders `None` as `"None"`. -/
def optStr (o : Option String) : String :=
  match o with
  | none => "None"
  | some s => s

/-- Model of Python truthiness of an optional string (`if img:`):
falsy exactly when absent or empty. -/
def truthyStr (o : Option String) : Bool :=
  match o with
  | none => false
  | some s => s ≠ ""

/-- Python `<` on strings: lexicographic by code point. -/
def listLtB : List Char → List Char → Bool
  | _, [] => false
  | [], _ :: _ => true
  | a :: as, b :: bs =>
      a.toNat < b.toNat || (a.toNat == b.toNat && listLtB as bs)

/-- Python `<` on strings. -/
def strLtB (s t : String) : Bool :=
  listLtB s.data t.data

/-! ## Stable sorting

Python `list.sort(key=k)` / `sorted(..., key=k)` is a stable sort;
`reverse=True` orders by key descending while still preserving the original
relative order of elements with equal keys.  Insertion sort below implements
exactly that contract (a later element is inserted after every already-placed
element whose key is `≥` its own). -/

/-- Insert `x` into `l` keeping keys descending; `x` goes before the first
element with a strictly smaller key, hence after all equal keys (stability). -/
def insertDescBy (key : α → String) (x : α) : List α → List α
  | [] => [x]
  | y :: ys =>
      if strLtB (key y) (key x) then x :: y :: ys else y :: insertDescBy key x ys

/-- Model of Python `sort(key=key, reverse=True)`: stable, key descending. -/
def sortDescBy (key : α → String) (l : List α) : List α :=
  l.foldl (fun acc x => insertDescBy key x acc) []

/-- Insert `x` into `l` keeping the list ascending; `x` goes before the first
strictly greater element, hence after all equal elements (stability). -/
def insertAscStr (x : String) : List String → List String
  | [] => [x]
  | y :: ys => if strLtB x y then x :: y :: ys else y :: insertAscStr x ys

/-- Model of Python `sorted(...)` on a list of strings: stable, ascending. -/
def sortAscStr (l : List String) : List String :=
  l.foldl (fun acc x => insertAscStr x acc) []

/-! ## Remote playlist model (Spotify listing)

`delete_all_kalx_playlists.py` and `delete_duplicate_playlists.py` consume the
paginated `/me/playlists` listing.  A remote playlist carries the fields the
two scripts read: `id`, `name`, `description`, `snapshot_id` (the
recency proxy) and `tracks.total`. -/

structure RemotePlaylist where
  id : String
  name : String
  description : String
  snapshot_id : String
  tracksTotal : Nat
deriving DecidableEq, Repr

/-- One HTTP response of the paginated listing: a 200 page carrying items and
an optional `next` cursor, or a non-success response. -/
inductive PageResp where
  | ok (items : List RemotePlaylist) (next : Option Nat)
  | errResp
deriving DecidableEq

/-- `get_user_playlists` of delete_duplicate_playlists.py: follow pages while a
`next` cursor exists; a non-success response is fatal (`sys.exit(1)`, modelled
as `Except.error`). -/
def get_user_playlists : List PageResp → Except Unit (List RemotePlaylist)
  | [] => .ok []
  | .errResp :: _ => .error ()
  | .ok items none :: _ => .ok items
  | .ok items (some _) :: rest =>
      match get_user_playlists rest with
      | .error e => .error e
      | .ok more => .ok (items ++ more)

/-- The page-following loop of `get_all_playlists` of
delete_all_kalx_playlists.py: on a non-success response the function returns
`[]`, discarding everything accumulated so far, and the caller continues. -/
def getAllGo (acc : List RemotePlaylist) : List PageResp → List RemotePlaylist
  | [] => acc
  | .errResp :: _ => []
  | .ok items none :: _ => acc ++ items
  | .ok items (some _) :: rest => getAllGo (acc ++ items) rest

/-- `get_all_playlists` of delete_all_kalx_playlists.py. -/
def get_all_playlists (pages : List PageResp) : List RemotePlaylist :=
  getAllGo [] pages

/-! ## Membership heuristics (which remote playlists belong to this system) -/

/-- The `is_kalx` predicate of delete_all_kalx_playlists.py (lines 92-97): name
has the `KALX -` marker at the start, or the description contains one of THREE
provenance markers. -/
def is_kalx (p : RemotePlaylist) : Bool :=
  pyStartsWith p.name "KALX -" ||
  pyIn "Generated from Spinitron" p.description ||
  pyIn "Spinítron ID:" p.description ||
  pyIn "Latest ID:" p.description

/-- The projected record `{id, name, description}` that
delete_all_kalx_playlists.py appends to `kalx_playlists` for every match. -/
structure KalxItem where
  id : String
  name : String
  description : String
deriving DecidableEq, Repr

/-- The projection applied at delete_all_kalx_playlists.py line 100-104. -/
def projKalx (p : RemotePlaylist) : KalxItem :=
  { id := p.id, name := p.name, description := p.description }

/-- The matching loop of delete_all_kalx_playlists.py (lines 86-104): build the
list of projected records for every playlist satisfying `is_kalx`. -/
def kalxFilterLoop (l : List RemotePlaylist) : List KalxItem :=
  l.foldl (fun acc p => if is_kalx p then acc ++ [projKalx p] else acc) []

/-- The matching filter of delete_duplicate_playlists.py (line 81):
`[p for p in all_playlists if p['name'].startswith('KALX -')]`. -/
def dupFilter (l : List RemotePlaylist) : List RemotePlaylist :=
  l.filter (fun p => pyStartsWith p.name "KALX -")

/-- The membership heuristic as the specification words it (claim side, for
comparison with `is_kalx`): name has the expected marker at the start, or the
description contains either of TWO known provenance markers. -/
def claimHeuristic (p : RemotePlaylist) : Bool :=
  pyStartsWith p.name "KALX -" ||
  pyIn "Generated from Spinitron" p.description ||
  pyIn "Spinítron ID:" p.description

/-! ## Duplicate resolver (delete_duplicate_playlists.py lines 88-110) -/

/-- `playlist_groups[k].append(v)` on a `defaultdict(list)` modelled as an
association list in key-insertion order: append `v` to the first group keyed
`k`, or create a new group at the end. -/
def appendAssoc (gs : List (String × List β)) (k : String) (v : β) :
    List (String × List β) :=
  match gs with
  | [] => [(k, [v])]
  | (n, g) :: rest =>
      if n = k then (n, g ++ [v]) :: rest else (n, g) :: appendAssoc rest k v

/-- Read the group stored under `k` (empty when absent). -/
def findGroup (gs : List (String × List β)) (k : String) : List β :=
  match gs with
  | [] => []
  | (n, g) :: rest => if n = k then g else findGroup rest k

/-- The grouping loop of delete_duplicate_playlists.py (lines 89-91):
`playlist_groups[playlist['name']].append(playlist)`. -/
def groupByName (l : List RemotePlaylist) : List (String × List RemotePlaylist) :=
  l.foldl (fun gs p => appendAssoc gs p.name p) []

/-- Per-group delete candidates (lines 98-110): only groups of size > 1 are
touched; the group is stable-sorted by `snapshot_id` descending and every
element except index 0 is marked for deletion. -/
def groupDeletes (g : List RemotePlaylist) : List RemotePlaylist :=
  if 1 < g.length then (sortDescBy (fun p => p.snapshot_id) g).drop 1 else []

/-- The `to_delete` list accumulated over all groups, in group-insertion
order. -/
def dupToDelete (gs : List (String × List RemotePlaylist)) : List RemotePlaylist :=
  gs.foldl (fun acc e => acc ++ groupDeletes e.2) []

/-- The kept playlists: matched playlists that are not scheduled for
deletion. -/
def dupKeep (l : List RemotePlaylist) : List RemotePlaylist :=
  l.filter (fun p => ¬ p ∈ dupToDelete (groupByName l))

/-! ## Confirmation gates -/

/-- The confirmation gate of delete_duplicate_playlists.py (lines 119-120):
`input(...).strip().lower()` accepted iff in `['yes', 'y']`. -/
def dupConfirmAccepts (s : String) : Bool :=
  let confirm := pyLower (pyStrip s)
  confirm == "yes" || confirm == "y"

/-! ## Delete loops and final reports -/

/-- The deletion loop of delete_all_kalx_playlists.py (lines 123-135): count
successes (`delete_playlist` returned HTTP 200) and failures separately.
`outc id` models the truth of `response.status_code == 200` for that id. -/
def kalxDeleteLoop (outc : String → Bool) (batch : List KalxItem) : Nat × Nat :=
  batch.foldl
    (fun counts p =>
      if outc p.id then (counts.1 + 1, counts.2) else (counts.1, counts.2 + 1))
    (0, 0)

/-- The final report of delete_all_kalx_playlists.py (lines 137-139). -/
def kalxReport (deleted failed : Nat) : List String :=
  ["\n📊 Results:",
   "   ✅ Deleted: " ++ toString deleted,
   "   ❌ Failed:  " ++ toString failed]

/-- The deletion loop of delete_duplicate_playlists.py (lines 125-133): only a
success counter is kept; failures are printed per item but not counted. -/
def dupDeleteLoop (outc : String → Bool) (batch : List RemotePlaylist) : Nat :=
  batch.foldl (fun dc p => if outc p.id then dc + 1 else dc) 0

/-- The final report of delete_duplicate_playlists.py (lines 135-136), printed
after the deletion loop: it mentions the success count and the number of
distinct names, and nothing else. -/
def dupDoneReport (deleted groupCount : Nat) : List String :=
  ["\n✅ Successfully deleted " ++ toString deleted ++ " duplicate playlists!",
   "🎵 " ++ toString groupCount ++ " unique KALX playlists remain"]

/-! ## The two cleanup runs end to end -/

/-- Outcome of one `main()` invocation of delete_duplicate_playlists.py.  The
inputs are the page responses the listing loop receives, the operator's
confirmation line, and the per-id HTTP outcome of the delete calls. -/
inductive DupResult where
  | listFailed
  | noKalx
  | noDuplicates
  | cancelled
  | finished (calls : List String) (deletedCount : Nat) (report : List String)
deriving DecidableEq

/-- `main()` of delete_duplicate_playlists.py. -/
def dupMain (pages : List PageResp) (confirm : String) (outc : String → Bool) :
    DupResult :=
  match get_user_playlists pages with
  | .error _ => .listFailed
  | .ok all_playlists =>
    let kalx_playlists := dupFilter all_playlists
    if kalx_playlists.isEmpty then .noKalx
    else
      let playlist_groups := groupByName kalx_playlists
      let to_delete := dupToDelete playlist_groups
      if to_delete.isEmpty then .noDuplicates
      else if dupConfirmAccepts confirm then
        let deleted_count := dupDeleteLoop outc to_delete
        .finished (to_delete.map (fun p => p.id)) deleted_count
          (dupDoneReport deleted_count playlist_groups.length)
      else .cancelled

/-- Outcome of one `main()` invocation of delete_all_kalx_playlists.py.
`noMatches` is a NORMAL return ("No KALX playlists found to delete"), not an
error: it is also what a failed listing collapses to. -/
inductive KalxResult where
  | noMatches
  | cancelled
  | finished (calls : List String) (deleted failed : Nat) (report : List String)
deriving DecidableEq

/-- `main()` of delete_all_kalx_playlists.py. -/
def kalxMain (pages : List PageResp) (confirm : String) (outc : String → Bool) :
    KalxResult :=
  let all_playlists := get_all_playlists pages
  let kalx_playlists := kalxFilterLoop all_playlists
  if kalx_playlists.isEmpty then .noMatches
  else if confirm ≠ "DELETE" then .cancelled
  else
    let counts := kalxDeleteLoop outc kalx_playlists
    .finished (kalx_playlists.map (fun p => p.id)) counts.1 counts.2
      (kalxReport counts.1 counts.2)

/-- Delete calls issued by a duplicate-cleanup run. -/
def dupCalls : DupResult → List String
  | .finished calls _ _ => calls
  | _ => []

/-- Success count reported by a duplicate-cleanup run. -/
def dupDeleted : DupResult → Nat
  | .finished _ dc _ => dc
  | _ => 0

/-- Final report lines of a duplicate-cleanup run. -/
def dupReport : DupResult → List String
  | .finished _ _ rep => rep
  | _ => []

/-- Delete calls issued by a delete-all-matching run. -/
def kalxCalls : KalxResult → List String
  | .finished calls _ _ _ => calls
  | _ => []

/-! ## MD5 (the `hashlib.md5` call of generate_static_html.py line 158-159)

A direct translation of the MD5 algorithm over `Nat` bytes/words with explicit
`% 2^32` reductions, so the accent-color selection is fully executable. -/

/-- UTF-8 encoding of one code point (Python `str.encode('utf-8')`). -/
def utf8Char (c : Char) : List Nat :=
  let n := c.toNat
  if n < 128 then [n]
  else if n < 2048 then
    [192 + n / 64, 128 + n % 64]
  else if n < 65536 then
    [224 + n / 4096, 128 + n / 64 % 64, 128 + n % 64]
  else
    [240 + n / 262144, 128 + n / 4096 % 64, 128 + n / 64 % 64, 128 + n % 64]

/-- UTF-8 bytes of a string. -/
def utf8Bytes (s : String) : List Nat :=
  s.data.flatMap utf8Char

/-- Per-round left-rotation amounts. -/
def md5S : List Nat :=
  [7, 12, 17, 22, 7, 12, 17, 22, 7, 12, 17, 22, 7, 12, 17, 22,
   5, 9, 14, 20, 5, 9, 14, 20, 5, 9, 14, 20, 5, 9, 14, 20,
   4, 11, 16, 23, 4, 11, 16, 23, 4, 11, 16, 23, 4, 11, 16, 23,
   6, 10, 15, 21, 6, 10, 15, 21, 6, 10, 15, 21, 6, 10, 15, 21]

/-- Per-round sine-derived constants. -/
def md5K : List Nat :=
  [0xd76aa478, 0xe8c7b756, 0x242070db, 0xc1bdceee,
   0xf57c0faf, 0x4787c62a, 0xa8304613, 0xfd469501,
   0x698098d8, 0x8b44f7af, 0xffff5bb1, 0x895cd7be,
   0x6b901122, 0xfd987193, 0xa679438e, 0x49b40821,
   0xf61e2562, 0xc040b340, 0x265e5a51, 0xe9b6c7aa,
   0xd62f105d, 0x02441453, 0xd8a1e681, 0xe7d3fbc8,
   0x21e1cde6, 0xc33707d6, 0xf4d50d87, 0x455a14ed,
   0xa9e3e905, 0xfcefa3f8, 0x676f02d9, 0x8d2a4c8a,
   0xfffa3942, 0x8771f681, 0x6d9d6122, 0xfde5380c,
   0xa4beea44, 0x4bdecfa9, 0xf6bb4b60, 0xbebfbc70,
   0x289b7ec6, 0xeaa127fa, 0xd4ef3085, 0x04881d05,
   0xd9d4d039, 0xe6db99e5, 0x1fa27cf8, 0xc4ac5665,
   0xf4292244, 0x432aff97, 0xab9423a7, 0xfc93a039,
   0x655b59c3, 0x8f0ccc92, 0xffeff47d, 0x85845dd1,
   0x6fa87e4f, 0xfe2ce6e0, 0xa3014314, 0x4e0811a1,
   0xf7537e82, 0xbd3af235, 0x2ad7d2bb, 0xeb86d391]

/-- 32-bit left rotation. -/
def rotl32 (x n : Nat) : Nat :=
  ((x <<< n) % 4294967296) + (x >>> (32 - n))

/-- MD5 padding: append `0x80`, zeros to 56 mod 64, then the bit length as
eight little-endian bytes. -/
def md5Pad (msg : List Nat) : List Nat :=
  let padZeros := (119 - msg.length % 64) % 64
  let bitLen := (8 * msg.length) % 18446744073709551616
  msg ++ [128] ++ List.replicate padZeros 0 ++
    (List.range 8).map (fun i => (bitLen >>> (8 * i)) % 256)

/-- Little-endian 32-bit word `j` of a 64-byte chunk. -/
def md5Word (chunk : List Nat) (j : Nat) : Nat :=
  chunk.getD (4 * j) 0 + 256 * chunk.getD (4 * j + 1) 0 +
    65536 * chunk.getD (4 * j + 2) 0 + 16777216 * chunk.getD (4 * j + 3) 0

/-- One of the 64 MD5 rounds applied to the working state `(a, b, c, d)`. -/
def md5Round (chunk : List Nat) (st : Nat × Nat × Nat × Nat) (i : Nat) :
    Nat × Nat × Nat × Nat :=
  let (a, b, c, d) := st
  let f :=
    if i < 16 then (b &&& c) ||| ((4294967295 - b) &&& d)
    else if i < 32 then (d &&& b) ||| ((4294967295 - d) &&& c)
    else if i < 48 then b ^^^ c ^^^ d
    else c ^^^ (b ||| (4294967295 - d))
  let g :=
    if i < 16 then i
    else if i < 32 then (5 * i + 1) % 16
    else if i < 48 then (3 * i + 5) % 16
    else (7 * i) % 16
  let sum := (f + a + md5K.getD i 0 + md5Word chunk g) % 4294967296
  (d, (b + rotl32 sum (md5S.getD i 0)) % 4294967296, b, c)

/-- Process one 64-byte chunk: run the 64 rounds and add the result into the
running state modulo `2^32`. -/
def md5Chunk (st : Nat × Nat × Nat × Nat) (chunk : List Nat) :
    Nat × Nat × Nat × Nat :=
  let (a0, b0, c0, d0) := st
  let (a, b, c, d) := (List.range 64).foldl (md5Round chunk) (a0, b0, c0, d0)
  ((a0 + a) % 4294967296, (b0 + b) % 4294967296,
   (c0 + c) % 4294967296, (d0 + d) % 4294967296)

/-- Fold the chunk step over `n` consecutive 64-byte chunks. -/
def md5Chunks (st : Nat × Nat × Nat × Nat) (bytes : List Nat) :
    Nat → Nat × Nat × Nat × Nat
  | 0 => st
  | n + 1 => md5Chunks (md5Chunk st (bytes.take 64)) (bytes.drop 64) n

/-- Little-endian bytes of a 32-bit word. -/
def wordBytes (w : Nat) : List Nat :=
  [w % 256, w / 256 % 256, w / 65536 % 256, w / 16777216 % 256]

/-- A byte as two lowercase hex digits. -/
def byteHex (b : Nat) : List Char :=
  let digit := fun n => if n < 10 then Char.ofNat (48 + n) else Char.ofNat (87 + n)
  [digit (b / 16), digit (b % 16)]

/-- `hashlib.md5(s.encode('utf-8')).hexdigest()`. -/
def md5hex (s : String) : String :=
  let msg := md5Pad (utf8Bytes s)
  let (a, b, c, d) :=
    md5Chunks (0x67452301, 0xefcdab89, 0x98badcfe, 0x10325476) msg
      (msg.length / 64)
  String.mk
    ((wordBytes a ++ wordBytes b ++ wordBytes c ++ wordBytes d).flatMap byteHex)

/-- `int(h, 16)` on a lowercase hex string. -/
def hexToNat (s : String) : Nat :=
  s.data.foldl
    (fun acc c =>
      16 * acc + (if c.toNat < 97 then c.toNat - 48 else c.toNat - 87)) 0

/-! ## Ingestion (generate_static_html.py lines 14-44, update_website.py 46-74)

One input line is blank, malformed (structured decode fails), or a decoded
JSON object.  A decoded object's fields are optional: `none` models an absent
key (the scripts' `.get` defaults and `KeyError` paths). -/

structure RawTrack where
  name : Option String
  artists : Option (List String)
  image_url : Option String
deriving DecidableEq, Repr

structure RawRecord where
  station : Option String
  name : Option String
  url : Option String
  track_count : Option Nat
  last_updated : Option String
  preview : Option (List RawTrack)
deriving DecidableEq, Repr

inductive InLine where
  | blank
  | malformed
  | record (r : RawRecord)
deriving DecidableEq

/-- The entry dict built per accepted line (generate_static_html.py lines
30-36): `name`/`url` keep their possibly-absent values, `last_updated` and
`preview` are defaulted. -/
structure Entry where
  name : Option String
  url : Option String
  track_count : Nat
  last_updated : String
  preview : List RawTrack
deriving DecidableEq, Repr

/-- Aggregation state: the `stations` dict (insertion-ordered) plus
`total_playlist_count`. -/
structure GenState where
  stations : List (String × List Entry)
  total_playlist_count : Nat
deriving DecidableEq

/-- The entry built by generate_static_html.py for a line that passed the
station and zero-track checks. -/
def mkEntry (r : RawRecord) (track_count : Nat) : Entry :=
  { name := r.name, url := r.url, track_count := track_count,
    last_updated := r.last_updated.getD "", preview := r.preview.getD [] }

/-- One loop iteration of generate_static_html.py `main` (lines 18-41):
blank and malformed lines are skipped, a falsy station is skipped, a
zero-track playlist is skipped WITHOUT being counted, everything else is
appended to its station and counted. -/
def genStep (st : GenState) (l : InLine) : GenState :=
  match l with
  | .blank => st
  | .malformed => st
  | .record r =>
    if r.station.getD "" = "" then st
    else
      let track_count := r.track_count.getD 0
      if track_count = 0 then st
      else
        { stations :=
            appendAssoc st.stations (r.station.getD "") (mkEntry r track_count),
          total_playlist_count := st.total_playlist_count + 1 }

/-- The whole ingestion loop of generate_static_html.py. -/
def genAggregate (lines : List InLine) : GenState :=
  lines.foldl genStep ⟨[], 0⟩

/-- One loop iteration of update_website.py `main` (lines 46-70): `station`,
`name`, `url` and `track_count` are read with `[]` (a missing key raises
`KeyError`, the line is skipped and not counted); `last_updated` and `preview`
are defaulted; NOTHING else is validated — an empty station string or a zero
track count is accepted and counted. -/
def updStep (st : GenState) (l : InLine) : GenState :=
  match l with
  | .blank => st
  | .malformed => st
  | .record r =>
    match r.station, r.name, r.url, r.track_count with
    | some station, some name, some url, some track_count =>
        { stations :=
            appendAssoc st.stations station
              { name := some name, url := some url, track_count := track_count,
                last_updated := r.last_updated.getD "",
                preview := r.preview.getD [] },
          total_playlist_count := st.total_playlist_count + 1 }
    | _, _, _, _ => st

/-- The whole ingestion loop of update_website.py. -/
def updAggregate (lines : List InLine) : GenState :=
  lines.foldl updStep ⟨[], 0⟩

/-! ### Claim-side counting predicates -/

/-- Claim side: the line decoded successfully and carried a non-empty
station field. -/
def parsedWithStation : InLine → Bool
  | .record r => r.station.getD "" != ""
  | _ => false

/-- What generate_static_html.py actually counts: decoded, truthy station,
nonzero track count. -/
def validGen : InLine → Bool
  | .record r => r.station.getD "" != "" && r.track_count.getD 0 != 0
  | _ => false

/-- What update_website.py actually counts: decoded with all four required
keys present (the station may be empty). -/
def validUpd : InLine → Bool
  | .record r =>
      r.station.isSome && r.name.isSome && r.url.isSome && r.track_count.isSome
  | _ => false

/-! ## Static renderer (generate_static_html.py lines 58-189)

The OS-entropy source behind `random.choice` is the explicit parameter
`r : Nat → Nat`: the `pos`-th call of `random.choice(symbols)` returns
`symbols[r pos % 33]`. -/

/-- The separator symbol pool (line 138-142; the duplicated entries of the
source list are kept). -/
def symbols : List String :=
  ["◆", "◇", "•", "×", "/", "\\", "✦", "✧", "✵", "✶", "✹", "✺", "✿", "❖",
   "❂", "❄", "❈", "❉", "❋", "◈", "▫", "▱", "✢", "✣", "✤", "✥", "✦", "✧",
   "★", "☆", "☉", "☾", "☽"]

/-- The fixed accent palette (lines 150-156). -/
def palette : List String :=
  ["#896241ff", "#422A19ff", "#88B1D4ff", "#A9C8D8ff", "#5A7ACFff"]

/-- Artist names of the first 12 preview tracks, deduplicated in first-seen
order (lines 131-136). -/
def collectArtists (preview : List RawTrack) : List String :=
  (preview.take 12).foldl
    (fun acc t =>
      (t.artists.getD []).foldl
        (fun a art => if a.contains art then a else a ++ [art]) acc)
    []

/-- The value of the `pos`-th `random.choice(symbols)` call. -/
def sepChoice (r : Nat → Nat) (pos : Nat) : String :=
  symbols.getD (r pos % symbols.length) ""

/-- The join loop of lines 146-148: one fresh random symbol between every two
consecutive artist names. -/
def joinArtists (r : Nat → Nat) : Nat → String → List String → String
  | _, txt, [] => txt
  | pos, txt, art :: rest =>
      joinArtists r (pos + 1) (txt ++ " " ++ sepChoice r pos ++ " " ++ art) rest

/-- The `txt` value of lines 143-148. -/
def txtOf (r : Nat → Nat) (pos : Nat) (artist_set : List String) : String :=
  match artist_set with
  | [] => ""
  | a :: rest => joinArtists r pos a rest

/-- Random draws consumed by one playlist: one per separator. -/
def sepCount (p : Entry) : Nat :=
  (collectArtists p.preview).length - 1

/-- The accent color (lines 149-161): a pure function of the playlist name
via MD5, independent of the random stream. -/
def colorOf (name : String) : String :=
  let name_hash := md5hex name
  palette.getD (hexToNat (String.mk (name_hash.data.take 8)) % palette.length) ""

/-- The `<img>` lines of the preview grid (lines 173-176): only tracks with a
truthy `image_url` contribute, but every one of the first 12 tracks is
consumed. -/
def previewImgLines (preview : List RawTrack) : List String :=
  (preview.take 12).foldl
    (fun acc t =>
      if truthyStr t.image_url then
        acc ++ ["<img src=\x27" ++ t.image_url.getD "" ++ "\x27 alt=\x27" ++
          t.name.getD "" ++ "\x27/>"]
      else acc)
    []

/-- The html lines one playlist appends (lines 127-180).  A playlist whose
`name` is absent makes `p['name'].encode('utf-8')` raise on `None`: the run
dies and no artifact is written, modelled as `none`. -/
def renderPlaylist (r : Nat → Nat) (pos : Nat) (p : Entry) :
    Option (List String) :=
  match p.name with
  | none => none
  | some nm =>
    let artist_set := collectArtists p.preview
    let txt := txtOf r pos artist_set
    let color := colorOf nm
    some
      (["<li><a class=\x27card\x27 href=\x27" ++ optStr p.url ++ "\x27>",
        "<div class=\"media-block\">",
        "<div class=\x27header-bar\x27 style=\x27background:" ++ color ++ "\x27>",
        "<div class=\x27badge\x27>" ++ toString p.track_count ++ "</div>",
        "<div class=\x27title\x27>" ++ nm ++ "</div>",
        "<div class=\x27timestamp\x27>Last Updated " ++ p.last_updated ++ "</div>",
        "</div>",
        "<div class=\x27overlay-all\x27>",
        "<div class=\x27mask-text\x27>" ++ txt ++ "</div>",
        "<div class=\"preview-grid\">"]
       ++ previewImgLines p.preview ++
       ["</div>", "</div>", "</a></li>"])

/-- Render the playlists of one station in order, threading the random-draw
position. -/
def renderPlaylists (r : Nat → Nat) : Nat → List Entry → Option (List String × Nat)
  | pos, [] => some ([], pos)
  | pos, p :: rest =>
    match renderPlaylist r pos p with
    | none => none
    | some lines =>
      match renderPlaylists r (pos + sepCount p) rest with
      | none => none
      | some (more, pos') => some (lines ++ more, pos')

/-- The defensive re-sort at render time (line 124-126), identical to the sort
of lines 59-60: stable, `last_updated` descending. -/
def renderOrder (pls : List Entry) : List Entry :=
  sortDescBy (fun p => p.last_updated) pls

/-- The station loop of lines 120-180.  The station names arrive sorted; each
station contributes a header, its `<ul>` opener, and its playlists re-sorted
by `renderOrder`; the closing `</ul></div>` of line 181 sits OUTSIDE the loop
and is appended once by `renderHtml`. -/
def renderStations (stations : List (String × List Entry)) (r : Nat → Nat) :
    Nat → List String → Option (List String)
  | _, [] => some []
  | pos, n :: rest =>
    match renderPlaylists r pos (renderOrder (findGroup stations n)) with
    | none => none
    | some (lines, pos') =>
      match renderStations stations r pos' rest with
      | none => none
      | some more =>
        some
          (("<div class=\"station\" id=\"" ++ n ++ "\"><h2>" ++ n ++
              "</h2><hr/>") ::
            "<ul class=\"playlist-list\">" :: (lines ++ more))

/-- The static head of the document (lines 62-114), verbatim. -/
def htmlHead : List String :=
  ["<!DOCTYPE html>",
   "<html lang=\"en\"><head><meta charset=\"utf-8\">",
   "<style>",
   "@import url(\x27https://fonts.googleapis.com/css2?family=Permanent+Marker&display=swap\x27);",
   "@import url(\x27https://fonts.googleapis.com/css2?family=Special+Gothic+Expanded+One:wght@400&display=swap\x27);",
   "@import url(\x27https://fonts.googleapis.com/css2?family=Libre+Bodoni:ital@1&display=swap\x27);",
   "body \x7b font-family: \"Segoe UI\", Roboto, \"Helvetica Neue\", Arial, sans-serif; max-width: 100vw; margin: 0; padding: 1rem; background-color: #ffffff; background-image: url(bg.jpg); background-attachment: fixed; background-size: cover \x7d",
   "a \x7b color: inherit; text-decoration: none; \x7d",
   "h2 \x7b font-size: 1.25rem; margin-bottom: 0.5rem; \x7d",
   "h3 \x7b font-family: \x27Permanent Marker\x27, cursive; font-size: 1.5rem; margin: 0 0 0.5rem; \x7d",
   ".station \x7b margin-bottom: 2rem; \x7d",
   ".playlist-list \x7b list-style: none; margin: 0; padding: 0; \x7d",
   ".playlist-list .card \x7b display: block; max-width: 800px; text-decoration: none; color: inherit; transition: background-color 0.5s ease; \x7d",
   ".card:hover \x7b background-color: #000; \x7d",
   ".card h3 \x7b font-size: 2rem; margin: 0 0 0.5rem; text-align: center; \x7d",
   ".meta \x7b font-size: 0.9rem; color: #555555; margin: 0 0 0.5rem; text-align: center; \x7d",
   ".media-block \x7b position: relative; margin-bottom: 2rem; \x7d",
   ".preview-grid \x7b display: grid; grid-template-columns: repeat(4, 1fr); \x7d",
   ".preview-grid img \x7b width: 100%; height: auto; object-fit: cover; \x7d",
   ".overlay-all \x7b position: relative; overflow: hidden; \x7d",
   ".playlist-name \x7b position: absolute; z-index: 5; text-align: left; \x7d",
   ".playlist-name > span \x7b position: absolute; z-index: 10; background: #000; color: #fff; word-break: break-word; \x7d",
   ".overlay-all .mask-text \x7b position: absolute; inset: 0; padding: 0.5rem; font-family: \x27Special Gothic Expanded One\x27, sans-serif; font-weight: 400; font-size: 4.12rem; color: #000; text-transform: uppercase; text-align: justify; line-height: 0.9; word-break: break-all; transition: opacity 0.5s ease; \x7d",
   ".card:hover .overlay-all .mask-text \x7b opacity: 0 \x7d",
   ".header-bar \x7b position: relative; padding: 2rem; color: #fff; display: flex; flex-direction: column; justify-content: center; \x7d",
   ".header-bar .title \x7b font-family: \x27Libre Bodoni\x27, serif; font-style: italic; font-size: 28px; margin: 0; \x7d",
   ".header-bar .timestamp \x7b font-family: \x27Libre Bodoni\x27, serif; font-style: italic; font-size: 16px; margin: 0; \x7d",
   ".media-block img \x7b mix-blend-mode: lighten; \x7d",
   ".badge \x7b position: absolute; top: 4.5rem; right: -1.5rem; z-index: 10; background: #e63946; color: #fff; border-radius: 50%; width: 5rem; height: 5rem; display: flex; align-items: center; justify-content: center; font-size: 1.8rem; font-weight: bold; \x7d",
   ".toc \x7b position: fixed; top: 1rem; left: 1rem; max-width: 200px; \x7d",
   ".toc strong \x7b display: block; margin-bottom: 0.5rem; \x7d",
   ".toc ul \x7b list-style: none; padding: 0; margin: 0; \x7d",
   ".toc li \x7b margin-bottom: 0.5rem; \x7d",
   ".main \x7b margin-left: 220px; \x7d",
   "@media (max-width: 768px) \x7b",
   "  .toc \x7b position: static; margin: 0 0 1rem; max-width: none; \x7d",
   "  .main \x7b margin-left: 0; \x7d",
   "  .overlay-all .mask-text \x7b font-size: 2rem; \x7d",
   "  .badge \x7b position: relative; top: auto; right: auto; margin-left: 0.5rem; \x7d",
   "\x7d",
   "@media (max-width: 768px) \x7b",
   "  .toc \x7b position: static; margin-bottom: 1rem; max-width: none; \x7d",
   "  .main \x7b margin-left: 0; \x7d",
   "  .overlay-all .mask-text \x7b font-size: 2.5rem; \x7d",
   "  .badge \x7b position: relative; top: auto; right: auto; margin-left: 0.5rem; \x7d",
   "\x7d",
   ".station h2 \x7b margin-bottom: 0.25rem; \x7d",
   ".station h2 + hr \x7b margin: 0 auto 1rem; border: none; border-top: 1px solid #ccc; \x7d",
   ".footer \x7b text-align: center; margin-top: 2rem; font-size: 0.9rem; color: #555555; \x7d",
   "</style></head><body>",
   "<div class=\x27toc\x27><strong>Stations</strong><ul>"]

/-- The table-of-contents entries (lines 115-116). -/
def tocLines (names : List String) : List String :=
  names.map (fun s => "<li><a href=\x27#" ++ s ++ "\x27>" ++ s ++ "</a></li>")

/-- The full document of one render run (lines 58-189): the joined html list,
or `none` when the run dies on an absent playlist name. -/
def renderHtml (stations : List (String × List Entry)) (ts : String)
    (count : Nat) (r : Nat → Nat) : Option String :=
  let sorted_stations := stations.map (fun e => (e.1, renderOrder e.2))
  let names := sortAscStr (sorted_stations.map Prod.fst)
  match renderStations sorted_stations r 0 names with
  | none => none
  | some body =>
    some (String.intercalate "\n"
      (htmlHead ++ tocLines names ++ ["</ul></div>", "<div class=\x27main\x27>"]
        ++ body
        ++ ["</ul></div>", "</div>",
            "<div class=\x27footer\x27>Updated: " ++ ts ++ " · Total Playlists: " ++
              toString count ++ "</div>",
            "</body></html>"]))

/-- Outcome of one generate_static_html.py run: the `sys.exit(1)` on empty
stations, a crash (no artifact), or the written artifact. -/
inductive GenResult where
  | emptyInput
  | crash
  | ok (artifact : String)
deriving DecidableEq

/-- `main` of generate_static_html.py end to end. -/
def genMain (lines : List InLine) (ts : String) (r : Nat → Nat) : GenResult :=
  let st := genAggregate lines
  if st.stations.isEmpty then .emptyInput
  else
    match renderHtml st.stations ts st.total_playlist_count r with
    | none => .crash
    | some html => .ok html

/-! ## update_website.py section renderer (lines 76-117) -/

/-- One preview item (lines 87-104). -/
def updPreviewItem (t : RawTrack) : String :=
  let name := t.name.getD ""
  let artists := String.intercalate ", " (t.artists.getD [])
  if truthyStr t.image_url then
    "<div class=\"preview-item\">" ++ "<img src=\"" ++ t.image_url.getD "" ++
      "\" alt=\"" ++ name ++ "\"/>" ++ "<br><span>" ++ artists ++ " – " ++
      name ++ "</span>" ++ "</div>"
  else
    "<div class=\"preview-item\">" ++ "<span>" ++ artists ++ " – " ++ name ++
      "</span>" ++ "</div>"

/-- One table row (lines 85-114). -/
def updRow (p : Entry) : List String :=
  let preview_html :=
    "<div class=\"preview-row\">" ++ String.join (p.preview.map updPreviewItem)
      ++ "</div>"
  ["<tr>",
   "<td><a href=\"" ++ optStr p.url ++ "\">" ++ optStr p.name ++ "</a></td>",
   "<td>" ++ toString p.track_count ++ "</td>",
   "<td>" ++ p.last_updated ++ "</td>",
   "<td>" ++ preview_html ++ "</td>",
   "</tr>"]

/-- One station section of update_website.py (lines 78-116).  The playlists
are iterated IN STORED ORDER — no sort happens anywhere in this script. -/
def updSectionLines (station : String) (playlists : List Entry) : List String :=
  ["<h2>" ++ station ++ "</h2>",
   "<table>",
   "<thead><tr><th>Show</th><th>Tracks</th><th>Updated</th><th>Preview</th></tr></thead>",
   "<tbody>"]
  ++ playlists.flatMap updRow
  ++ ["</tbody>", "</table>"]

/-- The remainder of a separated join after its first element: `tailJoin sep
[a, b]` is `sep ++ a ++ sep ++ b`.  Used to split `String.intercalate`. -/
def tailJoin (sep : String) : List String → String
  | [] => ""
  | a :: as => sep ++ a ++ tailJoin sep as

/-- Well-formedness of the grouping dictionary: every member of a group
carries the group's name, and group names are distinct.  Holds for every
dictionary `groupByName` builds. -/
def GroupsWF (gs : List (String × List RemotePlaylist)) : Prop :=
  (∀ e ∈ gs, ∀ p ∈ e.2, p.name = e.1) ∧ (gs.map Prod.fst).Nodup

/-! ## Concrete example inputs used by witnesses and counterexamples -/

/-- A preview track with two artists. -/
def exTrack2 : RawTrack :=
  { name := some "t1", artists := some ["Alice", "Bob"], image_url := none }

/-- A preview track with one artist. -/
def exTrack1 : RawTrack :=
  { name := some "t1", artists := some ["Alice"], image_url := none }

/-- A playlist entry whose artist overlay needs one random separator. -/
def exEntry2 : Entry :=
  { name := some "Demo", url := some "u", track_count := 2,
    last_updated := "2024", preview := [exTrack2] }

/-- A playlist entry whose artist overlay needs no separator. -/
def exEntry1 : Entry :=
  { name := some "Demo", url := some "u", track_count := 2,
    last_updated := "2024", preview := [exTrack1] }

/-- A one-station aggregate whose only playlist has two artists. -/
def exStations2 : List (String × List Entry) := [("S", [exEntry2])]

/-- A one-station aggregate whose only playlist has one artist. -/
def exStations1 : List (String × List Entry) := [("S", [exEntry1])]

/-- Two remote playlists with the same name, the first more recent. -/
def exKalxNew : RemotePlaylist :=
  { id := "i1", name := "KALX - A", description := "", snapshot_id := "b",
    tracksTotal := 3 }

def exKalxOld : RemotePlaylist :=
  { id := "i2", name := "KALX - A", description := "", snapshot_id := "a",
    tracksTotal := 2 }

/-- A remote playlist matching only the third provenance marker. -/
def exLatestOnly : RemotePlaylist :=
  { id := "i9", name := "foo", description := "Latest ID: 42",
    snapshot_id := "", tracksTotal := 0 }

/-- A remote playlist matching only the first provenance marker. -/
def exGenOnly : RemotePlaylist :=
  { id := "i8", name := "foo", description := "Generated from Spinitron",
    snapshot_id := "", tracksTotal := 0 }

/-- The duplicate-resolver example of the specification: `("X", 3)`,
`("X", 1)`, `("Y", 5)` with the recency proxy as `snapshot_id`. -/
def exResX3 : RemotePlaylist :=
  { id := "x3", name := "X", description := "", snapshot_id := "3",
    tracksTotal := 0 }

def exResX1 : RemotePlaylist :=
  { id := "x1", name := "X", description := "", snapshot_id := "1",
    tracksTotal := 0 }

def exResY5 : RemotePlaylist :=
  { id := "y5", name := "Y", description := "", snapshot_id := "5",
    tracksTotal := 0 }

/-- A pair of exact duplicates with EQUAL recency proxies (tie). -/
def exTieFirst : RemotePlaylist :=
  { id := "t1", name := "X", description := "", snapshot_id := "s",
    tracksTotal := 0 }

def exTieSecond : RemotePlaylist :=
  { id := "t2", name := "X", description := "", snapshot_id := "s",
    tracksTotal := 0 }

/-- Six exact copies of one name, snapshots strictly decreasing, so the
delete-set is the last five in listing order. -/
def exSix : List RemotePlaylist :=
  [{ id := "a1", name := "KALX - A", description := "", snapshot_id := "f", tracksTotal := 0 },
   { id := "a2", name := "KALX - A", description := "", snapshot_id := "e", tracksTotal := 0 },
   { id := "a3", name := "KALX - A", description := "", snapshot_id := "d", tracksTotal := 0 },
   { id := "a4", name := "KALX - A", description := "", snapshot_id := "c", tracksTotal := 0 },
   { id := "a5", name := "KALX - A", description := "", snapshot_id := "b", tracksTotal := 0 },
   { id := "a6", name := "KALX - A", description := "", snapshot_id := "a", tracksTotal := 0 }]

/-- Five exact copies of one name, snapshots strictly decreasing. -/
def exFive : List RemotePlaylist :=
  [{ id := "b1", name := "KALX - A", description := "", snapshot_id := "e", tracksTotal := 0 },
   { id := "b2", name := "KALX - A", description := "", snapshot_id := "d", tracksTotal := 0 },
   { id := "b3", name := "KALX - A", description := "", snapshot_id := "c", tracksTotal := 0 },
   { id := "b4", name := "KALX - A", description := "", snapshot_id := "b", tracksTotal := 0 },
   { id := "b5", name := "KALX - A", description := "", snapshot_id := "a", tracksTotal := 0 }]

/-- Delete outcome that fails exactly on id `a4` — the third item of the
five-element delete-set arising from `exSix`. -/
def exOutcFail3 (id : String) : Bool := !(id == "a4")

/-- A decoded line with an empty (but present) station field. -/
def exRecEmptyStation : RawRecord :=
  { station := some "", name := some "n", url := some "u",
    track_count := some 1, last_updated := some "2024", preview := some [] }

/-- A decoded line with a non-empty station and a zero track count. -/
def exRecZeroTrack : RawRecord :=
  { station := some "A", name := some "n", url := some "u",
    track_count := some 0, last_updated := some "2024", preview := some [] }

/-- A fully valid decoded line. -/
def exRecGood : RawRecord :=
  { station := some "B", name := some "n", url := some "u",
    track_count := some 2, last_updated := some "2024", preview := some [] }

/-- An older playlist entry (update_website section order example). -/
def exEntOld : Entry :=
  { name := some "Old", url := some "uo", track_count := 1,
    last_updated := "2023", preview := [] }

/-- A newer playlist entry. -/
def exEntNew : Entry :=
  { name := some "New", url := some "un", track_count := 1,
    last_updated := "2024", preview := [] }

/-- A five-item delete batch for delete_all_kalx_playlists.py. -/
def exKalxBatch5 : List KalxItem :=
  [{ id := "c1", name := "KALX - P1", description := "" },
   { id := "c2", name := "KALX - P2", description := "" },
   { id := "c3", name := "KALX - P3", description := "" },
   { id := "c4", name := "KALX - P4", description := "" },
   { id := "c5", name := "KALX - P5", description := "" }]

/-- Delete outcome failing exactly on the third item of `exKalxBatch5`. -/
def exOutcC3 (id : String) : Bool := !(id == "c3")

/-- The document lines `renderHtml exStations2 "ts" 1 r` emits after the
static head and before the artist overlay, for any random stream `r`. -/
def exTailA : List String :=
  ["<li><a href=\x27#S\x27>S</a></li>",
   "</ul></div>",
   "<div class=\x27main\x27>",
   "<div class=\"station\" id=\"S\"><h2>S</h2><hr/>",
   "<ul class=\"playlist-list\">",
   "<li><a class=\x27card\x27 href=\x27u\x27>",
   "<div class=\"media-block\">",
   "<div class=\x27header-bar\x27 style=\x27background:#A9C8D8ff\x27>",
   "<div class=\x27badge\x27>2</div>",
   "<div class=\x27title\x27>Demo</div>",
   "<div class=\x27timestamp\x27>Last Updated 2024</div>",
   "</div>",
   "<div class=\x27overlay-all\x27>"]

/-- The artist overlay line of `exStations2`, parameterised by the randomly
drawn separator symbol. -/
def exMaskLine (sep : String) : String :=
  "<div class=\x27mask-text\x27>Alice " ++ sep ++ " Bob</div>"

/-- The document lines after the artist overlay. -/
def exTailB : List String :=
  ["<div class=\"preview-grid\">",
   "</div>",
   "</div>",
   "</a></li>",
   "</ul></div>",
   "</div>",
   "<div class=\x27footer\x27>Updated: ts · Total Playlists: 1</div>",
   "</body></html>"]

/-- Everything `renderHtml exStations2 "ts" 1 r` emits after the static head:
fixed lines around one separator-dependent overlay line. -/
def exTail (sep : String) : List String :=
  exTailA ++ [exMaskLine sep] ++ exTailB

/-! # Theorems -/

/-! ## Order facts about Python string comparison -/

theorem listLtB_irrefl : ∀ l : List Char, listLtB l l = false
  | [] => rfl
  | a :: as => by
      simp [listLtB, listLtB_irrefl as]

theorem listLtB_trans : ∀ {as bs cs : List Char}, listLtB as bs = true →
    listLtB bs cs = true → listLtB as cs = true
  | _, [], _, hab, _ => by simp [listLtB] at hab
  | _, _ :: _, [], _, hbc => by simp [listLtB] at hbc
  | [], _ :: _, _ :: _, _, _ => by simp [listLtB]
  | a :: as, b :: bs, c :: cs, hab, hbc => by
      simp only [listLtB, Bool.or_eq_true, Bool.and_eq_true, decide_eq_true_eq,
        beq_iff_eq] at hab hbc ⊢
      rcases hab with hab | ⟨hab, hab'⟩ <;> rcases hbc with hbc | ⟨hbc, hbc'⟩
      · exact Or.inl (Nat.lt_trans hab hbc)
      · exact Or.inl (hbc ▸ hab)
      · exact Or.inl (hab ▸ hbc)
      · exact Or.inr ⟨hab.trans hbc, listLtB_trans hab' hbc'⟩

theorem strLtB_irrefl (s : String) : strLtB s s = false :=
  listLtB_irrefl s.data

theorem strLtB_trans {s t u : String} (h1 : strLtB s t = true)
    (h2 : strLtB t u = true) : strLtB s u = true :=
  listLtB_trans h1 h2

theorem strLtB_asymm {s t : String} (h : strLtB s t = true) :
    strLtB t s = false := by
  by_contra hc
  have h2 : strLtB t s = true := by
    cases hb : strLtB t s with
    | false => exact absurd hb hc
    | true => rfl
  have := strLtB_trans h h2
  rw [strLtB_irrefl] at this
  exact Bool.false_ne_true this

/-! ## The stable descending sort -/

theorem insertDescBy_perm (key : α → String) (x : α) :
    ∀ l : List α, (insertDescBy key x l).Perm (x :: l)
  | [] => List.Perm.refl _
  | y :: ys => by
      simp only [insertDescBy]
      split
      · exact List.Perm.refl _
      · exact ((insertDescBy_perm key x ys).cons y).trans
          (List.Perm.swap x y ys)

theorem sortDescBy_go_perm (key : α → String) :
    ∀ (l acc : List α),
      (l.foldl (fun acc x => insertDescBy key x acc) acc).Perm (acc ++ l)
  | [], acc => by simp
  | x :: xs, acc => by
      simp only [List.foldl_cons]
      refine (sortDescBy_go_perm key xs (insertDescBy key x acc)).trans ?_
      refine (((insertDescBy_perm key x acc).append_right xs).trans ?_)
      exact (List.perm_middle).symm

theorem sortDescBy_perm (key : α → String) (l : List α) :
    (sortDescBy key l).Perm l := by
  simpa using sortDescBy_go_perm key l []

theorem insertDescBy_pairwise (key : α → String) (x : α) (l : List α)
    (h : l.Pairwise (fun a b => strLtB (key a) (key b) = false)) :
    (insertDescBy key x l).Pairwise (fun a b => strLtB (key a) (key b) = false) := by
  induction l with
  | nil => simp [insertDescBy]
  | cons y ys ih =>
    rcases List.pairwise_cons.mp h with ⟨hy, hys⟩
    simp only [insertDescBy]
    split
    · rename_i hlt
      refine List.pairwise_cons.mpr ⟨?_, h⟩
      intro z hz
      rcases hz with _ | hz
      · exact strLtB_asymm hlt
      · rename_i hz
        by_contra hc
        have hxz : strLtB (key x) (key z) = true := by
          cases hb : strLtB (key x) (key z) with
          | false => exact absurd hb hc
          | true => rfl
        have hyz := strLtB_trans hlt hxz
        rw [hy z hz] at hyz
        exact Bool.false_ne_true hyz
    · rename_i hnlt
      refine List.pairwise_cons.mpr ⟨?_, ih hys⟩
      intro z hz
      have hzm := ((insertDescBy_perm key x ys).mem_iff).mp hz
      rcases List.mem_cons.mp hzm with hz' | hz'
      · subst hz'
        exact Bool.eq_false_iff.mpr (fun hc => hnlt hc)
      · exact hy z hz'

theorem sortDescBy_go_pairwise (key : α → String) :
    ∀ (l acc : List α),
      acc.Pairwise (fun a b => strLtB (key a) (key b) = false) →
      (l.foldl (fun acc x => insertDescBy key x acc) acc).Pairwise
        (fun a b => strLtB (key a) (key b) = false)
  | [], _, h => h
  | x :: xs, acc, h => by
      simp only [List.foldl_cons]
      exact sortDescBy_go_pairwise key xs _ (insertDescBy_pairwise key x acc h)

theorem sortDescBy_pairwise (key : α → String) (l : List α) :
    (sortDescBy key l).Pairwise (fun a b => strLtB (key a) (key b) = false) :=
  sortDescBy_go_pairwise key l [] (List.Pairwise.nil)

/-! ## The grouping dictionary -/

theorem findGroup_appendAssoc (gs : List (String × List β)) (k : String)
    (v : β) (n : String) :
    findGroup (appendAssoc gs k v) n =
      if k = n then findGroup gs n ++ [v] else findGroup gs n := by
  induction gs with
  | nil =>
    simp only [appendAssoc, findGroup]
    by_cases hk : k = n <;> simp [hk]
  | cons e rest ih =>
    obtain ⟨m, g⟩ := e
    simp only [appendAssoc]
    by_cases hm : m = k
    · subst hm
      simp only [if_pos rfl, findGroup]
      by_cases hn : m = n
      · subst hn
        simp
      · simp [hn]
    · simp only [if_neg hm, findGroup]
      by_cases hn : m = n
      · subst hn
        have hk : ¬ k = m := fun h => hm h.symm
        simp [hk]
      · simp [hn, ih]

theorem findGroup_groupFold :
    ∀ (l : List RemotePlaylist) (gs : List (String × List RemotePlaylist))
      (n : String),
      findGroup (l.foldl (fun gs p => appendAssoc gs p.name p) gs) n =
        findGroup gs n ++ l.filter (fun p => p.name == n)
  | [], gs, n => by simp
  | p :: rest, gs, n => by
      simp only [List.foldl_cons, List.filter_cons]
      rw [findGroup_groupFold rest _ n, findGroup_appendAssoc]
      by_cases hp : p.name = n
      · simp [hp]
      · simp [hp]

/-- The group stored under `n` is exactly the name-`n` sublist of the input,
in input order. -/
theorem findGroup_groupByName (l : List RemotePlaylist) (n : String) :
    findGroup (groupByName l) n = l.filter (fun p => p.name == n) := by
  simpa [findGroup] using findGroup_groupFold l [] n

theorem mem_names_appendAssoc {gs : List (String × List RemotePlaylist)}
    {k : String} {v : RemotePlaylist} {x : String}
    (h : x ∈ (appendAssoc gs k v).map Prod.fst) :
    x ∈ gs.map Prod.fst ∨ x = k := by
  induction gs with
  | nil =>
    simp only [appendAssoc, List.map_cons, List.map_nil] at h
    rcases List.mem_cons.mp h with h | h
    · exact Or.inr h
    · simp at h
  | cons e rest ih =>
    obtain ⟨m, g⟩ := e
    simp only [appendAssoc] at h
    by_cases hm : m = k
    · rw [if_pos hm] at h
      simp only [List.map_cons] at h
      exact Or.inl h
    · rw [if_neg hm] at h
      simp only [List.map_cons] at h
      rcases List.mem_cons.mp h with h | h
      · exact Or.inl (by simp [h])
      · rcases ih h with h | h
        · exact Or.inl (List.mem_cons.mpr (Or.inr h))
        · exact Or.inr h

theorem groupsWF_appendAssoc {gs : List (String × List RemotePlaylist)}
    {v : RemotePlaylist} (hwf : GroupsWF gs) :
    GroupsWF (appendAssoc gs v.name v) := by
  obtain ⟨hmem, hnd⟩ := hwf
  induction gs with
  | nil =>
    refine ⟨?_, by simp [appendAssoc]⟩
    intro e he p hp
    simp only [appendAssoc, List.mem_singleton] at he
    subst he
    simp only [List.mem_singleton] at hp
    subst hp
    rfl
  | cons e rest ih =>
    obtain ⟨m, g⟩ := e
    simp only [appendAssoc]
    by_cases hm : m = v.name
    · rw [if_pos hm]
      constructor
      · intro e' he' p hp
        rcases List.mem_cons.mp he' with he' | he'
        · subst he'
          rcases List.mem_append.mp hp with hp | hp
          · exact hmem (m, g) (List.mem_cons_self _ _) p hp
          · simp only [List.mem_singleton] at hp
            subst hp
            exact hm.symm
        · exact hmem e' (List.mem_cons.mpr (Or.inr he')) p hp
      · simpa using hnd
    · rw [if_neg hm]
      have hmem' : ∀ e ∈ rest, ∀ p ∈ e.2, p.name = e.1 :=
        fun e he p hp => hmem e (List.mem_cons.mpr (Or.inr he)) p hp
      have hnd' : (rest.map Prod.fst).Nodup := (List.nodup_cons.mp hnd).2
      obtain ⟨ihmem, ihnd⟩ := ih hmem' hnd'
      constructor
      · intro e' he' p hp
        rcases List.mem_cons.mp he' with he' | he'
        · subst he'
          exact hmem (m, g) (List.mem_cons_self _ _) p hp
        · exact ihmem e' he' p hp
      · refine List.nodup_cons.mpr ⟨?_, ihnd⟩
        intro hmx
        rcases mem_names_appendAssoc hmx with hmx | hmx
        · exact (List.nodup_cons.mp hnd).1 hmx
        · exact hm hmx

theorem groupsWF_groupFold :
    ∀ (l : List RemotePlaylist) (gs : List (String × List RemotePlaylist)),
      GroupsWF gs → GroupsWF (l.foldl (fun gs p => appendAssoc gs p.name p) gs)
  | [], _, h => h
  | p :: rest, gs, h => by
      simp only [List.foldl_cons]
      exact groupsWF_groupFold rest _ (groupsWF_appendAssoc h)

theorem groupsWF_groupByName (l : List RemotePlaylist) :
    GroupsWF (groupByName l) :=
  groupsWF_groupFold l [] ⟨by simp, by simp⟩

/-! ## The delete-set -/

theorem dupToDelete_go_eq :
    ∀ (gs : List (String × List RemotePlaylist)) (acc : List RemotePlaylist),
      gs.foldl (fun acc e => acc ++ groupDeletes e.2) acc =
        acc ++ (gs.map (fun e => groupDeletes e.2)).flatten
  | [], acc => by simp
  | e :: rest, acc => by
      simp only [List.foldl_cons, List.map_cons, List.flatten_cons]
      rw [dupToDelete_go_eq rest (acc ++ groupDeletes e.2)]
      simp

theorem dupToDelete_eq_flatten (gs : List (String × List RemotePlaylist)) :
    dupToDelete gs = (gs.map (fun e => groupDeletes e.2)).flatten := by
  simpa [dupToDelete] using dupToDelete_go_eq gs []

theorem mem_groupDeletes {g : List RemotePlaylist} {p : RemotePlaylist}
    (h : p ∈ groupDeletes g) : p ∈ g := by
  simp only [groupDeletes] at h
  split at h
  · exact ((sortDescBy_perm (fun p => p.snapshot_id) g).mem_iff).mp
      (List.mem_of_mem_drop h)
  · simp at h

theorem length_groupDeletes (g : List RemotePlaylist) :
    (groupDeletes g).length = g.length - 1 := by
  simp only [groupDeletes]
  split
  · rename_i hlen
    rw [List.length_drop, (sortDescBy_perm (fun p => p.snapshot_id) g).length_eq]
  · rename_i hlen
    simp only [List.length_nil]
    omega

theorem countP_groupDeletes {g : List RemotePlaylist} {m : String}
    (hg : ∀ p ∈ g, p.name = m) (n : String) :
    (groupDeletes g).countP (fun p => p.name == n) =
      if m = n then g.length - 1 else 0 := by
  by_cases hmn : m = n
  · subst hmn
    rw [if_pos rfl, ← length_groupDeletes g]
    rw [List.countP_eq_length]
    intro p hp
    simp [hg p (mem_groupDeletes hp)]
  · rw [if_neg hmn, List.countP_eq_zero]
    intro p hp
    have := hg p (mem_groupDeletes hp)
    simp [this, hmn]

theorem findGroup_eq_nil_of_not_mem
    {gs : List (String × List RemotePlaylist)} {n : String}
    (h : ¬ n ∈ gs.map Prod.fst) : findGroup gs n = [] := by
  induction gs with
  | nil => rfl
  | cons e rest ih =>
    obtain ⟨m, g⟩ := e
    simp only [List.map_cons, List.mem_cons] at h
    push_neg at h
    simp only [findGroup]
    rw [if_neg (fun hmn => h.1 hmn.symm)]
    exact ih h.2

theorem countP_dupToDelete (gs : List (String × List RemotePlaylist))
    (hwf : GroupsWF gs) (n : String) :
    (dupToDelete gs).countP (fun p => p.name == n) =
      (findGroup gs n).length - 1 := by
  induction gs with
  | nil => simp [dupToDelete, findGroup]
  | cons e rest ih =>
    obtain ⟨m, g⟩ := e
    obtain ⟨hmem, hnd⟩ := hwf
    have hwfr : GroupsWF rest :=
      ⟨fun e he p hp => hmem e (List.mem_cons.mpr (Or.inr he)) p hp,
       (List.nodup_cons.mp hnd).2⟩
    rw [dupToDelete_eq_flatten] at *
    simp only [List.map_cons, List.flatten_cons, List.countP_append]
    have hg : ∀ p ∈ g, p.name = m :=
      hmem (m, g) (List.mem_cons_self _ _)
    rw [countP_groupDeletes hg n, ih hwfr]
    simp only [findGroup]
    by_cases hmn : m = n
    · subst hmn
      rw [if_pos rfl, if_pos rfl]
      have hnot : ¬ m ∈ rest.map Prod.fst := (List.nodup_cons.mp hnd).1
      rw [findGroup_eq_nil_of_not_mem hnot]
      simp
    · rw [if_neg hmn, if_neg hmn]
      simp

/-- Per name, the resolver deletes exactly one fewer copy than the matched
listing contains (`Nat` subtraction: zero for absent or unique names). -/
theorem countP_toDelete_matched (matched : List RemotePlaylist) (n : String) :
    (dupToDelete (groupByName matched)).countP (fun p => p.name == n) =
      matched.countP (fun p => p.name == n) - 1 := by
  rw [countP_dupToDelete _ (groupsWF_groupByName matched) n,
    findGroup_groupByName, ← List.countP_eq_length_filter]

/-! ## Ingestion counting -/

theorem genStep_invalid {st : GenState} {l : InLine} (h : validGen l = false) :
    genStep st l = st := by
  cases l with
  | blank => rfl
  | malformed => rfl
  | record r =>
    simp only [validGen, Bool.and_eq_false_iff, bne_eq_false_iff_eq] at h
    by_cases hs : r.station.getD "" = ""
    · simp [genStep, hs]
    · rcases h with h | h
      · exact absurd h hs
      · simp [genStep, hs, h]

theorem genStep_valid {st : GenState} {r : RawRecord}
    (hs : ¬ r.station.getD "" = "") (ht : ¬ r.track_count.getD 0 = 0) :
    genStep st (.record r) =
      { stations :=
          appendAssoc st.stations (r.station.getD "")
            (mkEntry r (r.track_count.getD 0)),
        total_playlist_count := st.total_playlist_count + 1 } := by
  simp [genStep, hs, ht]

theorem validGen_record {r : RawRecord} (h : validGen (.record r) = true) :
    ¬ r.station.getD "" = "" ∧ ¬ r.track_count.getD 0 = 0 := by
  simpa [validGen] using h

theorem genFold_total :
    ∀ (lines : List InLine) (st : GenState),
      (lines.foldl genStep st).total_playlist_count =
        st.total_playlist_count + lines.countP validGen
  | [], st => by simp
  | l :: rest, st => by
      simp only [List.foldl_cons, List.countP_cons]
      cases hv : validGen l with
      | false =>
        rw [genStep_invalid hv, genFold_total rest st]
        simp
      | true =>
        cases l with
        | blank => simp [validGen] at hv
        | malformed => simp [validGen] at hv
        | record r =>
          obtain ⟨hs, ht⟩ := validGen_record hv
          rw [genStep_valid hs ht, genFold_total rest _]
          simp
          omega

theorem appendAssoc_ne_nil (gs : List (String × List β)) (k : String) (v : β) :
    appendAssoc gs k v ≠ [] := by
  cases gs with
  | nil => simp [appendAssoc]
  | cons e rest =>
    obtain ⟨m, g⟩ := e
    simp only [appendAssoc]
    split <;> simp

theorem genStep_stations_ne {st : GenState} {l : InLine}
    (h : st.stations ≠ []) : (genStep st l).stations ≠ [] := by
  cases l with
  | blank => exact h
  | malformed => exact h
  | record r =>
    by_cases hs : r.station.getD "" = ""
    · simpa [genStep, hs] using h
    · by_cases ht : r.track_count.getD 0 = 0
      · simpa [genStep, hs, ht] using h
      · rw [genStep_valid hs ht]
        exact appendAssoc_ne_nil _ _ _

theorem genFold_stations_ne :
    ∀ (lines : List InLine) (st : GenState), st.stations ≠ [] →
      (lines.foldl genStep st).stations ≠ []
  | [], _, h => h
  | l :: rest, st, h => by
      simp only [List.foldl_cons]
      exact genFold_stations_ne rest _ (genStep_stations_ne h)

theorem genFold_stations_nil_iff :
    ∀ (lines : List InLine) (st : GenState),
      (lines.foldl genStep st).stations = [] ↔
        st.stations = [] ∧ lines.countP validGen = 0
  | [], st => by simp
  | l :: rest, st => by
      simp only [List.foldl_cons, List.countP_cons]
      cases hv : validGen l with
      | false =>
        rw [genStep_invalid hv, genFold_stations_nil_iff rest st]
        simp
      | true =>
        cases l with
        | blank => simp [validGen] at hv
        | malformed => simp [validGen] at hv
        | record r =>
          obtain ⟨hs, ht⟩ := validGen_record hv
          rw [genStep_valid hs ht]
          constructor
          · intro hnil
            exact absurd hnil
              (genFold_stations_ne rest _ (appendAssoc_ne_nil _ _ _))
          · intro ⟨_, hc⟩
            simp at hc

/-- The run of generate_static_html.py exits with the empty-input error
exactly when no line decoded with a truthy station and a nonzero track count;
in that case the result carries no artifact. -/
theorem genMain_emptyInput_iff (lines : List InLine) (ts : String)
    (r : Nat → Nat) :
    genMain lines ts r = .emptyInput ↔ lines.countP validGen = 0 := by
  have hiff := genFold_stations_nil_iff lines ⟨[], 0⟩
  simp only [true_and] at hiff
  unfold genMain
  by_cases hnil : (genAggregate lines).stations = []
  · rw [if_pos (List.isEmpty_iff.mpr hnil)]
    simp only [true_iff]
    exact hiff.mp hnil
  · rw [if_neg (fun hc => hnil (List.isEmpty_iff.mp hc))]
    have hne : ¬ lines.countP validGen = 0 := fun hc => hnil (hiff.mpr hc)
    cases renderHtml (genAggregate lines).stations ts
        (genAggregate lines).total_playlist_count r with
    | none => simpa using hne
    | some html => simpa using hne

theorem updFold_total :
    ∀ (lines : List InLine) (st : GenState),
      (lines.foldl updStep st).total_playlist_count =
        st.total_playlist_count + lines.countP validUpd
  | [], st => by simp
  | l :: rest, st => by
      simp only [List.foldl_cons, List.countP_cons]
      cases l with
      | blank =>
        rw [show updStep st .blank = st from rfl, updFold_total rest st]
        simp [validUpd]
      | malformed =>
        rw [show updStep st .malformed = st from rfl, updFold_total rest st]
        simp [validUpd]
      | record r =>
        rcases hst : r.station with _ | s
        · rw [show updStep st (.record r) = st by simp [updStep, hst],
            updFold_total rest st]
          simp [validUpd, hst]
        · rcases hnm : r.name with _ | nm
          · rw [show updStep st (.record r) = st by simp [updStep, hst, hnm],
              updFold_total rest st]
            simp [validUpd, hst, hnm]
          · rcases hu : r.url with _ | u
            · rw [show updStep st (.record r) = st by
                  simp [updStep, hst, hnm, hu],
                updFold_total rest st]
              simp [validUpd, hst, hnm, hu]
            · rcases htc : r.track_count with _ | tc
              · rw [show updStep st (.record r) = st by
                    simp [updStep, hst, hnm, hu, htc],
                  updFold_total rest st]
                simp [validUpd, hst, hnm, hu, htc]
              · rw [show updStep st (.record r) =
                      { stations :=
                          appendAssoc st.stations s
                            { name := some nm, url := some u,
                              track_count := tc,
                              last_updated := r.last_updated.getD "",
                              preview := r.preview.getD [] },
                        total_playlist_count :=
                          st.total_playlist_count + 1 } by
                    simp [updStep, hst, hnm, hu, htc],
                  updFold_total rest _]
                simp only [validUpd, hst, hnm, hu, htc]
                simp
                omega

/-! ## The matched set of delete_all_kalx_playlists.py -/

theorem kalxFilterLoop_go :
    ∀ (l : List RemotePlaylist) (acc : List KalxItem),
      l.foldl (fun acc p => if is_kalx p then acc ++ [projKalx p] else acc) acc
        = acc ++ (l.filter is_kalx).map projKalx
  | [], acc => by simp
  | p :: rest, acc => by
      simp only [List.foldl_cons, List.filter_cons]
      by_cases hk : is_kalx p = true
      · rw [if_pos hk, kalxFilterLoop_go rest _]
        simp [hk]
      · rw [if_neg hk]
        have hk' : is_kalx p = false := Bool.eq_false_iff.mpr hk
        rw [kalxFilterLoop_go rest acc]
        simp [hk']

theorem kalxFilterLoop_eq (l : List RemotePlaylist) :
    kalxFilterLoop l = (l.filter is_kalx).map projKalx := by
  simpa [kalxFilterLoop] using kalxFilterLoop_go l []

/-! ## The delete loops -/

theorem kalxDeleteLoop_go (outc : String → Bool) :
    ∀ (batch : List KalxItem) (d f : Nat),
      batch.foldl
        (fun counts p =>
          if outc p.id then (counts.1 + 1, counts.2)
          else (counts.1, counts.2 + 1)) (d, f) =
        (d + batch.countP (fun p => outc p.id),
         f + (batch.length - batch.countP (fun p => outc p.id)))
  | [], d, f => by simp
  | p :: rest, d, f => by
      have hle := List.countP_le_length (p := fun p => outc p.id) (l := rest)
      simp only [List.foldl_cons, List.countP_cons, List.length_cons]
      by_cases ho : outc p.id = true
      · rw [if_pos ho, kalxDeleteLoop_go outc rest (d + 1) f]
        simp only [ho, if_pos trivial]
        refine Prod.ext ?_ ?_
        · simp
          try omega
        · simp
          try omega
      · rw [if_neg ho, kalxDeleteLoop_go outc rest d (f + 1)]
        have ho' : outc p.id = false := Bool.eq_false_iff.mpr ho
        simp only [ho']
        refine Prod.ext ?_ ?_
        · simp
          try omega
        · simp
          try omega

theorem dupDeleteLoop_go (outc : String → Bool) :
    ∀ (batch : List RemotePlaylist) (d : Nat),
      batch.foldl (fun dc p => if outc p.id then dc + 1 else dc) d =
        d + batch.countP (fun p => outc p.id)
  | [], d => by simp
  | p :: rest, d => by
      simp only [List.foldl_cons, List.countP_cons]
      by_cases ho : outc p.id = true
      · rw [if_pos ho, dupDeleteLoop_go outc rest (d + 1)]
        simp only [ho]
        simp
        omega
      · rw [if_neg ho, dupDeleteLoop_go outc rest d]
        have ho' : outc p.id = false := Bool.eq_false_iff.mpr ho
        simp [ho']

/-! ## Splitting a joined document at a fixed prefix -/

theorem intercalate_go_spec (sep : String) :
    ∀ (l : List String) (acc : String),
      String.intercalate.go acc sep l = acc ++ tailJoin sep l
  | [], acc => by
      simp only [String.intercalate.go, tailJoin]
      exact (String.append_empty acc).symm
  | a :: as, acc => by
      simp only [String.intercalate.go, tailJoin]
      rw [intercalate_go_spec sep as _]
      simp only [String.append_assoc]

theorem tailJoin_append (sep : String) :
    ∀ (xs ys : List String),
      tailJoin sep (xs ++ ys) = tailJoin sep xs ++ tailJoin sep ys
  | [], ys => by
      simp only [List.nil_append, tailJoin]
      exact (String.empty_append _).symm
  | x :: xs, ys => by
      show sep ++ x ++ tailJoin sep (xs ++ ys) = sep ++ x ++ tailJoin sep xs ++ tailJoin sep ys
      rw [tailJoin_append sep xs ys]
      simp only [String.append_assoc]

theorem intercalate_append_of_ne_nil (sep : String) (xs rest : List String)
    (hxs : xs ≠ []) :
    String.intercalate sep (xs ++ rest) =
      String.intercalate sep xs ++ tailJoin sep rest := by
  cases xs with
  | nil => exact absurd rfl hxs
  | cons x xs' =>
    show String.intercalate.go x sep (xs' ++ rest) = _
    rw [intercalate_go_spec sep (xs' ++ rest) x, tailJoin_append]
    show _ = String.intercalate.go x sep xs' ++ tailJoin sep rest
    rw [intercalate_go_spec sep xs' x]
    simp only [String.append_assoc]

theorem strAppend_left_cancel {a b c : String} (h : a ++ b = a ++ c) :
    b = c := by
  have hd : a.data ++ b.data = a.data ++ c.data := congrArg String.data h
  exact String.ext (List.append_cancel_left hd)

theorem strAppend_right_cancel {a b c : String} (h : a ++ c = b ++ c) :
    a = b := by
  have hd : a.data ++ c.data = b.data ++ c.data := congrArg String.data h
  exact String.ext (List.append_cancel_right hd)

/-! ## Determinism of the renderer up to the random separator draws -/

theorem renderPlaylist_indep (r1 r2 : Nat → Nat) (pos1 pos2 : Nat) (p : Entry)
    (h : (collectArtists p.preview).length ≤ 1) :
    renderPlaylist r1 pos1 p = renderPlaylist r2 pos2 p := by
  cases hn : p.name with
  | none => simp [renderPlaylist, hn]
  | some nm =>
    have htxt : txtOf r1 pos1 (collectArtists p.preview) =
        txtOf r2 pos2 (collectArtists p.preview) := by
      cases has : collectArtists p.preview with
      | nil => rfl
      | cons a rest =>
        cases rest with
        | nil => rfl
        | cons b rest2 =>
          rw [has] at h
          simp at h
    simp only [renderPlaylist, hn, htxt]

theorem renderPlaylists_indep (r1 r2 : Nat → Nat) :
    ∀ (pls : List Entry) (pos1 pos2 : Nat),
      (∀ p ∈ pls, (collectArtists p.preview).length ≤ 1) →
      Option.map Prod.fst (renderPlaylists r1 pos1 pls) =
        Option.map Prod.fst (renderPlaylists r2 pos2 pls)
  | [], _, _, _ => rfl
  | p :: rest, pos1, pos2, h => by
      simp only [renderPlaylists]
      rw [renderPlaylist_indep r1 r2 pos1 pos2 p (h p (List.mem_cons_self p rest))]
      cases hp : renderPlaylist r2 pos2 p with
      | none => rfl
      | some lines =>
        have ih := renderPlaylists_indep r1 r2 rest (pos1 + sepCount p)
          (pos2 + sepCount p) (fun q hq => h q (List.mem_cons_of_mem p hq))
        cases h1 : renderPlaylists r1 (pos1 + sepCount p) rest with
        | none =>
          cases h2 : renderPlaylists r2 (pos2 + sepCount p) rest with
          | none => rfl
          | some pr =>
            rw [h1, h2] at ih
            exact absurd ih (by simp)
        | some pr1 =>
          cases h2 : renderPlaylists r2 (pos2 + sepCount p) rest with
          | none =>
            rw [h1, h2] at ih
            exact absurd ih (by simp)
          | some pr2 =>
            rw [h1, h2] at ih
            obtain ⟨l1, q1⟩ := pr1
            obtain ⟨l2, q2⟩ := pr2
            have hl : l1 = l2 := by simpa using ih
            simp [hl]

theorem mem_findGroup {gs : List (String × List β)} {n : String} {p : β} :
    p ∈ findGroup gs n → ∃ e ∈ gs, p ∈ e.2 := by
  induction gs with
  | nil => intro h; simp [findGroup] at h
  | cons e rest ih =>
    obtain ⟨m, g⟩ := e
    intro h
    simp only [findGroup] at h
    by_cases hm : m = n
    · rw [if_pos hm] at h
      exact ⟨(m, g), List.mem_cons_self _ _, h⟩
    · rw [if_neg hm] at h
      obtain ⟨e', he', hp⟩ := ih h
      exact ⟨e', List.mem_cons_of_mem _ he', hp⟩

theorem renderStations_indep (stations : List (String × List Entry))
    (r1 r2 : Nat → Nat) :
    ∀ (names : List String) (pos1 pos2 : Nat),
      (∀ e ∈ stations, ∀ p ∈ e.2, (collectArtists p.preview).length ≤ 1) →
      renderStations stations r1 pos1 names =
        renderStations stations r2 pos2 names
  | [], _, _, _ => rfl
  | n :: rest, pos1, pos2, h => by
      simp only [renderStations]
      have hmem : ∀ p ∈ renderOrder (findGroup stations n),
          (collectArtists p.preview).length ≤ 1 := by
        intro p hp
        have hp' : p ∈ findGroup stations n :=
          ((sortDescBy_perm _ _).mem_iff).mp hp
        obtain ⟨e, he, hpe⟩ := mem_findGroup hp'
        exact h e he p hpe
      have hmap := renderPlaylists_indep r1 r2
        (renderOrder (findGroup stations n)) pos1 pos2 hmem
      cases h1 : renderPlaylists r1 pos1 (renderOrder (findGroup stations n)) with
      | none =>
        cases h2 : renderPlaylists r2 pos2 (renderOrder (findGroup stations n)) with
        | none => rfl
        | some pr =>
          rw [h1, h2] at hmap
          exact absurd hmap (by simp)
      | some pr1 =>
        cases h2 : renderPlaylists r2 pos2 (renderOrder (findGroup stations n)) with
        | none =>
          rw [h1, h2] at hmap
          exact absurd hmap (by simp)
        | some pr2 =>
          rw [h1, h2] at hmap
          obtain ⟨l1, q1⟩ := pr1
          obtain ⟨l2, q2⟩ := pr2
          have hl : l1 = l2 := by simpa using hmap
          subst hl
          have hrec := renderStations_indep stations r1 r2 rest q1 q2 h
          simp only [hrec]

/-- Two runs of the static renderer over the same aggregate differ at most in
the randomly drawn separator symbols; when no playlist needs a separator
(at most one distinct artist each), the two runs agree byte for byte. -/
theorem renderHtml_indep (stations : List (String × List Entry)) (ts : String)
    (count : Nat) (r1 r2 : Nat → Nat)
    (h : ∀ e ∈ stations, ∀ p ∈ e.2, (collectArtists p.preview).length ≤ 1) :
    renderHtml stations ts count r1 = renderHtml stations ts count r2 := by
  unfold renderHtml
  have h' : ∀ e ∈ stations.map (fun e => (e.1, renderOrder e.2)),
      ∀ p ∈ e.2, (collectArtists p.preview).length ≤ 1 := by
    intro e he p hp
    obtain ⟨e0, he0, heq⟩ := List.mem_map.mp he
    subst heq
    have hp' : p ∈ e0.2 := ((sortDescBy_perm _ _).mem_iff).mp hp
    exact h e0 he0 p hp'
  have hr := renderStations_indep (stations.map (fun e => (e.1, renderOrder e.2)))
    r1 r2
    (sortAscStr ((stations.map (fun e => (e.1, renderOrder e.2))).map Prod.fst))
    0 0 h'
  simp only [hr]

/-! # Claim theorems -/

/-- C1 (amended): rendering is deterministic given the stream of
`random.choice` draws, and the accent color depends only on the playlist name
(`colorOf` takes no random input); the artist separators are the ONLY random
part of the output, so whenever no playlist needs a separator — every playlist
shows at most one distinct artist — two runs with arbitrary random streams
produce byte-identical documents. -/
theorem claim_C1 (stations : List (String × List Entry)) (ts : String)
    (count : Nat) (r1 r2 : Nat → Nat)
    (h : ∀ e ∈ stations, ∀ p ∈ e.2, (collectArtists p.preview).length ≤ 1) :
    renderHtml stations ts count r1 = renderHtml stations ts count r2 :=
  renderHtml_indep stations ts count r1 r2 h

/-- C1 witness: a concrete one-artist aggregate rendered under two different
random streams, byte-identical. -/
theorem claim_C1_witness :
    (∀ e ∈ exStations1, ∀ p ∈ e.2, (collectArtists p.preview).length ≤ 1) ∧
    renderHtml exStations1 "ts" 1 (fun _ => 0) =
      renderHtml exStations1 "ts" 1 (fun _ => 5) :=
  ⟨by decide, claim_C1 exStations1 "ts" 1 (fun _ => 0) (fun _ => 5) (by decide)⟩

set_option maxRecDepth 4000 in
/-- C1 counterexample: the separator between two artist names comes from
`random.choice`, so two runs over the SAME parsed input and timestamp differ
whenever the drawn symbols differ — the output is not a function of the input
alone, refuting byte-identical re-rendering. -/
theorem claim_C1_counterexample :
    renderHtml exStations2 "ts" 1 (fun _ => 0) ≠
      renderHtml exStations2 "ts" 1 (fun _ => 1) := by
  intro heq
  have h1 : renderHtml exStations2 "ts" 1 (fun _ => 0) =
      some (String.intercalate "\n" (htmlHead ++ exTail "◆")) := rfl
  have h2 : renderHtml exStations2 "ts" 1 (fun _ => 1) =
      some (String.intercalate "\n" (htmlHead ++ exTail "◇")) := rfl
  rw [h1, h2] at heq
  have h3 := Option.some.inj heq
  rw [intercalate_append_of_ne_nil "\n" htmlHead (exTail "◆")
        (by simp [htmlHead]),
      intercalate_append_of_ne_nil "\n" htmlHead (exTail "◇")
        (by simp [htmlHead])] at h3
  have h4 := strAppend_left_cancel h3
  simp only [exTail, tailJoin_append, String.append_assoc] at h4
  have h5 := strAppend_left_cancel h4
  have h6 := strAppend_right_cancel h5
  have hne : tailJoin "\n" [exMaskLine "◆"] ≠ tailJoin "\n" [exMaskLine "◇"] := by
    decide
  exact hne h6

/-- C2 (amended): delete_all_kalx_playlists.py compares the typed line
verbatim with `DELETE` and issues zero delete calls otherwise;
delete_duplicate_playlists.py strips surrounding whitespace, lowercases, and
accepts exactly `yes` or `y`, issuing zero delete calls otherwise — so its
gate is NOT a verbatim comparison. -/
theorem claim_C2 (pages : List PageResp) (confirm : String)
    (outc : String → Bool) :
    (confirm ≠ "DELETE" → kalxCalls (kalxMain pages confirm outc) = []) ∧
    (dupConfirmAccepts confirm = false →
      dupCalls (dupMain pages confirm outc) = []) ∧
    (dupConfirmAccepts confirm = true ↔
      pyLower (pyStrip confirm) = "yes" ∨ pyLower (pyStrip confirm) = "y") := by
  refine ⟨?_, ?_, ?_⟩
  · intro hc
    unfold kalxMain
    by_cases hk : (kalxFilterLoop (get_all_playlists pages)).isEmpty
    · simp [hk, kalxCalls]
    · simp [hk, hc, kalxCalls]
  · intro hc
    unfold dupMain
    cases get_user_playlists pages with
    | error e => simp [dupCalls]
    | ok all =>
      by_cases h1 : (dupFilter all).isEmpty
      · simp [h1, dupCalls]
      · by_cases h2 :
          (dupToDelete (groupByName (dupFilter all))).isEmpty
        · simp [h1, h2, dupCalls]
        · simp [h1, h2, hc, dupCalls]
  · simp [dupConfirmAccepts]

/-- C2 witness: a non-token line cancels both scripts with zero delete
calls. -/
theorem claim_C2_witness :
    kalxCalls (kalxMain [.ok [exKalxNew, exKalxOld] none] "nope"
      (fun _ => true)) = [] ∧
    dupCalls (dupMain [.ok [exKalxNew, exKalxOld] none] "nope"
      (fun _ => true)) = [] :=
  ⟨(claim_C2 [.ok [exKalxNew, exKalxOld] none] "nope" (fun _ => true)).1
      (by decide),
   (claim_C2 [.ok [exKalxNew, exKalxOld] none] "nope" (fun _ => true)).2.1
      (by decide)⟩

/-- C2 counterexample: the duplicate cleaner proceeds to deletion on the
case-variant input `YES`, which is verbatim-equal to neither accepted token —
refuting the claim that any input other than the exact token cancels. -/
theorem claim_C2_counterexample :
    dupMain [.ok [exKalxNew, exKalxOld] none] "YES" (fun _ => true) =
      .finished ["i2"] 1 (dupDoneReport 1 1) ∧
    dupCalls (dupMain [.ok [exKalxNew, exKalxOld] none] "YES"
      (fun _ => true)) = ["i2"] ∧
    "YES" ≠ "yes" ∧ "YES" ≠ "y" := by decide

/-- C3 (amended): in delete_duplicate_playlists.py a non-success listing
response is fatal before any deletion; in delete_all_kalx_playlists.py it
makes the page loop return `[]` (discarding every page already fetched), and
the run then completes NORMALLY with "no playlists found" — zero deletions,
but a success exit rather than an abort. -/
theorem claim_C3 (pages : List PageResp) (confirm : String)
    (outc : String → Bool) (acc : List RemotePlaylist)
    (rest : List PageResp) :
    (get_user_playlists pages = .error () →
      dupMain pages confirm outc = .listFailed ∧
      dupCalls (dupMain pages confirm outc) = []) ∧
    getAllGo acc (.errResp :: rest) = [] ∧
    (get_all_playlists pages = [] →
      kalxMain pages confirm outc = .noMatches ∧
      kalxCalls (kalxMain pages confirm outc) = []) := by
  refine ⟨?_, rfl, ?_⟩
  · intro h
    have hm : dupMain pages confirm outc = .listFailed := by
      unfold dupMain
      rw [h]
    exact ⟨hm, by rw [hm]; rfl⟩
  · intro h
    have hm : kalxMain pages confirm outc = .noMatches := by
      unfold kalxMain
      rw [h]
      rfl
    exact ⟨hm, by rw [hm]; rfl⟩

/-- C3 witness: a failing first page aborts the duplicate cleaner, and an
empty listing ends the delete-all run with no matches. -/
theorem claim_C3_witness :
    dupMain [PageResp.errResp] "yes" (fun _ => true) = .listFailed ∧
    kalxMain [] "DELETE" (fun _ => true) = .noMatches :=
  ⟨((claim_C3 [PageResp.errResp] "yes" (fun _ => true) [] []).1 rfl).1,
   ((claim_C3 [] "DELETE" (fun _ => true) [] []).2.2 rfl).1⟩

/-- C3 counterexample: a non-success listing response makes
delete_all_kalx_playlists.py finish as a NORMAL "no playlists found" run —
the claimed fatal abort does not happen there, and a mid-pagination failure
even silently discards the already-fetched page. -/
theorem claim_C3_counterexample :
    get_user_playlists [PageResp.errResp] = .error () ∧
    kalxMain [PageResp.errResp] "DELETE" (fun _ => true) = .noMatches ∧
    get_all_playlists [PageResp.ok [exKalxNew] (some 1), PageResp.errResp]
      = [] :=
  ⟨rfl, rfl, rfl⟩

/-- C4 (amended): generate_static_html.py counts exactly the lines that
decode with a truthy station AND a nonzero track count (zero-track lines are
skipped without being counted); update_website.py counts exactly the lines
that decode with `station`, `name`, `url` and `track_count` keys all present
— an empty station string is counted there. -/
theorem claim_C4 (lines : List InLine) :
    (genAggregate lines).total_playlist_count = lines.countP validGen ∧
    (updAggregate lines).total_playlist_count = lines.countP validUpd := by
  constructor
  · simpa using genFold_total lines ⟨[], 0⟩
  · simpa using updFold_total lines ⟨[], 0⟩

/-- C4 counterexample: a decoded zero-track line with a non-empty station is
not counted by generate_static_html.py, and a decoded line with an empty
station IS counted by update_website.py — in both runs some data is written
(the station map is non-empty), and the written count differs from the number
of successfully decoded non-empty-station lines. -/
theorem claim_C4_counterexample :
    (genAggregate [.record exRecZeroTrack, .record exRecGood]).total_playlist_count = 1 ∧
    [InLine.record exRecZeroTrack, .record exRecGood].countP parsedWithStation = 2 ∧
    (genAggregate [.record exRecZeroTrack, .record exRecGood]).stations ≠ [] ∧
    (updAggregate [.record exRecEmptyStation]).total_playlist_count = 1 ∧
    [InLine.record exRecEmptyStation].countP parsedWithStation = 0 ∧
    (updAggregate [.record exRecEmptyStation]).stations ≠ [] := by decide

/-- C5 (amended): generate_static_html.py re-sorts every station's playlists
at render time (`renderOrder`, used by `renderHtml`): the rendered order is a
permutation of the station's playlists in which no earlier playlist has a
strictly smaller `last_updated` than a later one.  update_website.py does NOT
re-sort — see the counterexample. -/
theorem claim_C5 (pls : List Entry) :
    (renderOrder pls).Perm pls ∧
    (renderOrder pls).Pairwise
      (fun a b => strLtB a.last_updated b.last_updated = false) :=
  ⟨sortDescBy_perm _ pls, sortDescBy_pairwise _ pls⟩

/-- C5 counterexample: update_website.py renders a station's playlists in
input order: with the older playlist listed first, its `last_updated` cell
appears among the first ten section lines and the newer playlist's only
later, although the newer playlist has the strictly greater timestamp. -/
theorem claim_C5_counterexample :
    strLtB exEntOld.last_updated exEntNew.last_updated = true ∧
    "<td>2023</td>" ∈ (updSectionLines "S" [exEntOld, exEntNew]).take 10 ∧
    "<td>2024</td>" ∉ (updSectionLines "S" [exEntOld, exEntNew]).take 10 ∧
    "<td>2024</td>" ∈ updSectionLines "S" [exEntOld, exEntNew] := by decide

/-- C6: the Duplicate Resolver on the specification's own example — grouped
by exact name, each group of size > 1 sorted by recency proxy descending,
index 0 kept, the rest deleted; ties keep the earlier-listed copy. -/
theorem claim_C6 :
    dupToDelete (groupByName [exResX3, exResX1, exResY5]) = [exResX1] ∧
    dupKeep [exResX3, exResX1, exResY5] = [exResX3, exResY5] ∧
    dupToDelete (groupByName [exTieFirst, exTieSecond]) = [exTieSecond] ∧
    dupKeep [exTieFirst, exTieSecond] = [exTieFirst] := by decide

/-- C7 (amended): both delete loops attempt every item and classify success
exactly as an HTTP-200 return; delete_all_kalx_playlists.py reports deleted
AND failed counts (a 5-item batch with one failure reports 4 and 1), while
delete_duplicate_playlists.py keeps only the success counter. -/
theorem claim_C7 (outc : String → Bool) (batch : List KalxItem)
    (dbatch : List RemotePlaylist) :
    kalxDeleteLoop outc batch =
      (batch.countP (fun p => outc p.id),
       batch.length - batch.countP (fun p => outc p.id)) ∧
    (kalxDeleteLoop outc batch).1 + (kalxDeleteLoop outc batch).2 =
      batch.length ∧
    dupDeleteLoop outc dbatch = dbatch.countP (fun p => outc p.id) ∧
    kalxDeleteLoop exOutcC3 exKalxBatch5 = (4, 1) ∧
    kalxReport 4 1 =
      ["\n📊 Results:", "   ✅ Deleted: 4", "   ❌ Failed:  1"] := by
  have hk := kalxDeleteLoop_go outc batch 0 0
  have hle := List.countP_le_length (p := fun p : KalxItem => outc p.id)
    (l := batch)
  refine ⟨?_, ?_, ?_, by decide, by decide⟩
  · simpa [kalxDeleteLoop] using hk
  · have : kalxDeleteLoop outc batch =
        (batch.countP (fun p => outc p.id),
         batch.length - batch.countP (fun p => outc p.id)) := by
      simpa [kalxDeleteLoop] using hk
    rw [this]
    simp
    omega
  · simpa [dupDeleteLoop] using dupDeleteLoop_go outc dbatch 0

/-- C7 counterexample: the duplicate cleaner's completion report is identical
for a 5-item batch with one failure and a 4-item batch with none — the number
of failed deletions is not part of what the run reports. -/
theorem claim_C7_counterexample :
    dupReport (dupMain [.ok exSix none] "yes" exOutcFail3) =
      dupReport (dupMain [.ok exFive none] "yes" (fun _ => true)) ∧
    (dupCalls (dupMain [.ok exSix none] "yes" exOutcFail3)).length = 5 ∧
    (dupCalls (dupMain [.ok exSix none] "yes" exOutcFail3)).length -
      dupDeleted (dupMain [.ok exSix none] "yes" exOutcFail3) = 1 ∧
    (dupCalls (dupMain [.ok exFive none] "yes" (fun _ => true))).length -
      dupDeleted (dupMain [.ok exFive none] "yes" (fun _ => true)) = 0 := by
  decide

/-- C8 (amended): the run of generate_static_html.py fails with the
empty-input exit if and only if zero lines decoded with a truthy station and
a NONZERO track count — a successfully decoded non-empty-station line with
zero tracks does not prevent the failure; when the run fails this way, no
artifact is produced. -/
theorem claim_C8 (lines : List InLine) (ts : String) (r : Nat → Nat) :
    (genMain lines ts r = .emptyInput ↔ lines.countP validGen = 0) ∧
    (genMain lines ts r = .emptyInput →
      ∀ s, genMain lines ts r ≠ .ok s) := by
  refine ⟨genMain_emptyInput_iff lines ts r, ?_⟩
  intro h s hs
  rw [h] at hs
  cases hs

/-- C8 witness: a stream with zero countable lines fails with the empty-input
exit and produces no artifact. -/
theorem claim_C8_witness :
    [InLine.record exRecZeroTrack].countP validGen = 0 ∧
    genMain [.record exRecZeroTrack] "t" (fun _ => 0) = .emptyInput ∧
    genMain [.record exRecZeroTrack] "t" (fun _ => 0) ≠ .ok "page" := by
  have h1 : [InLine.record exRecZeroTrack].countP validGen = 0 := by decide
  have h2 := (claim_C8 [.record exRecZeroTrack] "t" (fun _ => 0)).1.mpr h1
  exact ⟨h1, h2, (claim_C8 [.record exRecZeroTrack] "t" (fun _ => 0)).2 h2 "page"⟩

/-- C8 counterexample: a line that parses successfully with the non-empty
station `A` but a zero track count still yields the empty-input failure —
refuting "failure occurs exactly when no record with a non-empty station
parsed successfully". -/
theorem claim_C8_counterexample :
    genMain [.record exRecZeroTrack] "t" (fun _ => 0) = .emptyInput ∧
    [InLine.record exRecZeroTrack].countP parsedWithStation = 1 := by decide

/-- C9 (amended): delete_all_kalx_playlists.py matches a playlist exactly
when its name starts with `KALX -` or its description contains one of THREE
provenance markers (`Generated from Spinitron`, `Spinítron ID:`,
`Latest ID:`); a playlist matching none is never in its matched set.
delete_duplicate_playlists.py matches by the name test alone. -/
theorem claim_C9 (l : List RemotePlaylist) (q : KalxItem)
    (p : RemotePlaylist) :
    (q ∈ kalxFilterLoop l ↔ ∃ p0 ∈ l, is_kalx p0 = true ∧ q = projKalx p0) ∧
    (p ∈ dupFilter l ↔ p ∈ l ∧ pyStartsWith p.name "KALX -" = true) := by
  constructor
  · rw [kalxFilterLoop_eq]
    constructor
    · intro hq
      obtain ⟨p0, hp0, rfl⟩ := List.mem_map.mp hq
      obtain ⟨hmem, hk⟩ := List.mem_filter.mp hp0
      exact ⟨p0, hmem, hk, rfl⟩
    · rintro ⟨p0, hmem, hk, rfl⟩
      exact List.mem_map.mpr ⟨p0, List.mem_filter.mpr ⟨hmem, hk⟩, rfl⟩
  · simp [dupFilter, List.mem_filter]

/-- C9 counterexample: the heuristic has THREE description markers, not two —
a playlist whose description contains only `Latest ID:` satisfies neither the
name test nor either of the two claimed markers, yet lands in the matched set
of delete_all_kalx_playlists.py; conversely a playlist carrying a claimed
marker is NOT matched by delete_duplicate_playlists.py, whose filter is the
name test alone. -/
theorem claim_C9_counterexample :
    claimHeuristic exLatestOnly = false ∧
    projKalx exLatestOnly ∈ kalxFilterLoop [exLatestOnly] ∧
    claimHeuristic exGenOnly = true ∧
    exGenOnly ∉ dupFilter [exGenOnly] := by decide

/-- C10: for every name, the resolver's delete list contains exactly one
fewer playlist of that name than the matched listing does (`Nat`
subtraction), so one copy always survives, and a playlist whose name is
unique in the matched set is never scheduled for deletion. -/
theorem claim_C10 (matched : List RemotePlaylist) (n : String)
    (p : RemotePlaylist) :
    (dupToDelete (groupByName matched)).countP (fun q => q.name == n) =
      matched.countP (fun q => q.name == n) - 1 ∧
    (p ∈ matched → matched.countP (fun q => q.name == p.name) = 1 →
      p ∉ dupToDelete (groupByName matched)) := by
  refine ⟨countP_toDelete_matched matched n, ?_⟩
  intro hp hcount hmem
  have h := countP_toDelete_matched matched p.name
  rw [hcount] at h
  have hpos :
      0 < (dupToDelete (groupByName matched)).countP
        (fun q => q.name == p.name) :=
    List.countP_pos_iff.mpr ⟨p, hmem, by simp⟩
  omega

/-- C10 witness: on the specification's example, one of the two `X` copies is
deleted and the unique `Y` playlist is untouched. -/
theorem claim_C10_witness :
    (dupToDelete (groupByName [exResX3, exResX1, exResY5])).countP
        (fun q => q.name == "X") =
      [exResX3, exResX1, exResY5].countP (fun q => q.name == "X") - 1 ∧
    exResY5 ∉ dupToDelete (groupByName [exResX3, exResX1, exResY5]) :=
  ⟨(claim_C10 [exResX3, exResX1, exResY5] "X" exResY5).1,
   (claim_C10 [exResX3, exResX1, exResY5] "X" exResY5).2 (by decide)
     (by decide)⟩

end Spinitron
